import Mathlib

/-!
Verification of the trip planner repository.

Embedding conventions:
- Calendar dates are modelled as integer day numbers (`Int`); the source
  manipulates `datetime` values only through `timedelta(days = k)`, which is
  integer addition on day numbers.  `strftime("%Y-%m-%d")` string formatting is
  abstracted by `fmtDay` (rendering the day number); no claim depends on the
  textual form of a formatted date.
- Python arbitrary-precision integers are `Int`; Python float division inside
  the slider arithmetic is modelled as exact rational (`ℚ`) division.
  `math.ceil` is the integer ceiling and Python `int(...)` on a float is
  truncation toward zero (`truncInt` below).
- Printing is pure logging except for the warnings that the claims mention;
  those are modelled explicitly (as a warning list or a Boolean flag).
-/

set_option linter.unusedVariables false

/-- Rendering of a day number, abstracting strftime("%Y-%m-%d") in main.py. -/
def fmtDay (d : Int) : String := toString d

/-- Truncation of a rational toward zero: the behaviour of Python int() on a
float, used by the inline price-slider computation in flight_finder.py. -/
def truncInt (q : ℚ) : Int := if 0 ≤ q then ⌊q⌋ else ⌈q⌉

/-- The trip_info record built in main.py (lines 100-107).  The redundant
string copies of the dates (start_date_str, end_date_str) are represented once
by the day numbers; original_saturday is the anchor date the record was
derived from. -/
structure TripPeriod where
  description : String
  start_date : Int
  end_date : Int
  original_saturday : Int
deriving DecidableEq, Repr

/-- The body of the inner loop of main.py (lines 78-108): from one anchor
Saturday and one length-option tag, either the trip period appended to
all_trip_periods, or none when the tag is unknown (the continue branch at
line 97). -/
def trip_period_for_option (sat_date : Int) (length_option : String) : Option TripPeriod :=
  if length_option = "none" then
    some ⟨"Weekend (Fri-Sun): " ++ fmtDay (sat_date - 1) ++ " to " ++ fmtDay (sat_date + 1),
          sat_date - 1, sat_date + 1, sat_date⟩
  else if length_option = "friday_off" then
    some ⟨"Friday Off (Thu-Sun): " ++ fmtDay (sat_date - 2) ++ " to " ++ fmtDay (sat_date + 1),
          sat_date - 2, sat_date + 1, sat_date⟩
  else if length_option = "monday_off" then
    some ⟨"Monday Off (Fri-Mon): " ++ fmtDay (sat_date - 1) ++ " to " ++ fmtDay (sat_date + 2),
          sat_date - 1, sat_date + 2, sat_date⟩
  else none

/-- The three length-option tags recognised by main.py. -/
def isKnownLengthOption (o : String) : Bool :=
  o == "none" || o == "friday_off" || o == "monday_off"

/-- The nested loop of main.py (lines 77-108): anchors as the outer loop,
length options as the inner loop, appending each generated record in order. -/
def generate_trip_periods (parsed_weekend_dates : List Int)
    (trip_length_options : List String) : List TripPeriod :=
  parsed_weekend_dates.flatMap fun sat_date =>
    trip_length_options.filterMap (trip_period_for_option sat_date)

/-- The warnings printed by the loop of main.py: one per (anchor, option)
iteration whose option tag is unknown (line 96). -/
def trip_length_warnings (parsed_weekend_dates : List Int)
    (trip_length_options : List String) : List String :=
  parsed_weekend_dates.flatMap fun _ =>
    trip_length_options.filterMap fun o =>
      if isKnownLengthOption o then none
      else some ("Warning: Unknown trip length option " ++ o ++ ". Skipping.")

lemma trip_period_isSome (sat : Int) (o : String) :
    (trip_period_for_option sat o).isSome = isKnownLengthOption o := by
  unfold trip_period_for_option isKnownLengthOption
  by_cases h1 : o = "none" <;> by_cases h2 : o = "friday_off" <;>
    by_cases h3 : o = "monday_off" <;> simp [h1, h2, h3]

lemma filterMap_trip_period (sat : Int) (options : List String) :
    options.filterMap (trip_period_for_option sat) =
      (options.filter isKnownLengthOption).map
        (fun o => (trip_period_for_option sat o).getD ⟨"", 0, 0, 0⟩) := by
  induction options with
  | nil => rfl
  | cons o os ih =>
    rcases h : trip_period_for_option sat o with _ | p
    · have hk : isKnownLengthOption o = false := by
        have hs := trip_period_isSome sat o
        rw [h] at hs
        simpa using hs.symm
      simp [List.filterMap_cons, List.filter_cons, h, hk, ih]
    · have hk : isKnownLengthOption o = true := by
        have hs := trip_period_isSome sat o
        rw [h] at hs
        simpa using hs.symm
      simp [List.filterMap_cons, List.filter_cons, h, hk, ih]

/-- C1: for every anchor date D, option "none" yields start = D-1 and
end = D+1, option "friday_off" yields start = D-2 and end = D+1, and option
"monday_off" yields start = D-1 and end = D+2. -/
theorem trip_period_day_offsets (D : Int) :
    (trip_period_for_option D "none").map (fun p => (p.start_date, p.end_date))
      = some (D - 1, D + 1) ∧
    (trip_period_for_option D "friday_off").map (fun p => (p.start_date, p.end_date))
      = some (D - 2, D + 1) ∧
    (trip_period_for_option D "monday_off").map (fun p => (p.start_date, p.end_date))
      = some (D - 1, D + 2) := by
  refine ⟨rfl, rfl, rfl⟩

lemma length_filterMap_trip_period (sat : Int) (options : List String) :
    (options.filterMap (trip_period_for_option sat)).length =
      (options.filter isKnownLengthOption).length := by
  rw [filterMap_trip_period]
  exact List.length_map _ _

/-- C4: the generated list of trip periods is the cross product of anchors and
valid length options, anchors as the outer loop and options as the inner loop,
in input order and with duplicates kept; its length is the number of anchors
times the number of valid options. -/
theorem trip_periods_cross_product (dates : List Int) (options : List String) :
    generate_trip_periods dates options =
      dates.flatMap (fun sat => (options.filter isKnownLengthOption).map
        (fun o => (trip_period_for_option sat o).getD ⟨"", 0, 0, 0⟩)) ∧
    (generate_trip_periods dates options).length =
      dates.length * (options.filter isKnownLengthOption).length := by
  constructor
  · unfold generate_trip_periods
    induction dates with
    | nil => rfl
    | cons d ds ih => simp [List.flatMap_cons, ih, filterMap_trip_period]
  · unfold generate_trip_periods
    induction dates with
    | nil => simp
    | cons d ds ih =>
      simp only [List.flatMap_cons, List.length_append, ih,
        length_filterMap_trip_period, List.length_cons]
      ring

/-- C8: every generated trip period satisfies
start_date < anchor date and anchor date <= end_date. -/
theorem trip_period_invariant (dates : List Int) (options : List String)
    (p : TripPeriod) (hp : p ∈ generate_trip_periods dates options) :
    p.start_date < p.original_saturday ∧ p.original_saturday ≤ p.end_date := by
  unfold generate_trip_periods at hp
  rw [List.mem_flatMap] at hp
  obtain ⟨sat, _, hmem⟩ := hp
  rw [List.mem_filterMap] at hmem
  obtain ⟨o, _, hmk⟩ := hmem
  unfold trip_period_for_option at hmk
  split_ifs at hmk <;> cases hmk <;> constructor <;> simp

/-- Witness for C8 at the concrete anchor 20 with option "none". -/
theorem trip_period_invariant_witness :
    (⟨"Weekend (Fri-Sun): " ++ fmtDay 19 ++ " to " ++ fmtDay 21, 19, 21, 20⟩ : TripPeriod)
        ∈ generate_trip_periods [20] ["none"] ∧
    ((⟨"Weekend (Fri-Sun): " ++ fmtDay 19 ++ " to " ++ fmtDay 21, 19, 21, 20⟩ : TripPeriod).start_date
        < (⟨"Weekend (Fri-Sun): " ++ fmtDay 19 ++ " to " ++ fmtDay 21, 19, 21, 20⟩ : TripPeriod).original_saturday ∧
     (⟨"Weekend (Fri-Sun): " ++ fmtDay 19 ++ " to " ++ fmtDay 21, 19, 21, 20⟩ : TripPeriod).original_saturday
        ≤ (⟨"Weekend (Fri-Sun): " ++ fmtDay 19 ++ " to " ++ fmtDay 21, 19, 21, 20⟩ : TripPeriod).end_date) :=
  ⟨by simp [generate_trip_periods, trip_period_for_option],
   trip_period_invariant [20] ["none"] _ (by simp [generate_trip_periods, trip_period_for_option])⟩

/-- C9: an unknown length option contributes nothing to the generated output
(removing all its occurrences leaves the output unchanged) and, whenever it
occurs in the options of a run with at least one anchor date, a warning for it
is emitted. -/
theorem unknown_length_option_skipped (dates : List Int) (options : List String)
    (o : String) (hk : isKnownLengthOption o = false) :
    generate_trip_periods dates options =
      generate_trip_periods dates (options.filter (fun x => x != o)) ∧
    (o ∈ options → dates ≠ [] →
      ("Warning: Unknown trip length option " ++ o ++ ". Skipping.")
        ∈ trip_length_warnings dates options) := by
  have hnone : ∀ sat : Int, trip_period_for_option sat o = none := by
    intro sat
    have hs := trip_period_isSome sat o
    rw [hk] at hs
    exact Option.not_isSome_iff_eq_none.mp (by simp [hs])
  constructor
  · unfold generate_trip_periods
    have key : ∀ sat : Int,
        options.filterMap (trip_period_for_option sat) =
          (options.filter (fun x => x != o)).filterMap (trip_period_for_option sat) := by
      intro sat
      induction options with
      | nil => rfl
      | cons x xs ih =>
        by_cases hx : x = o
        · subst hx
          simp [List.filterMap_cons, List.filter_cons, hnone, ih]
        · simp [List.filterMap_cons, List.filter_cons, hx, ih]
    simp only [key]
  · intro ho hd
    unfold trip_length_warnings
    rw [List.mem_flatMap]
    rcases dates with _ | ⟨d, ds⟩
    · exact absurd rfl hd
    · refine ⟨d, List.mem_cons_self d ds, ?_⟩
      rw [List.mem_filterMap]
      exact ⟨o, ho, by simp [hk]⟩

/-- Witness for C9 at the concrete unknown option "bogus". -/
theorem unknown_length_option_skipped_witness :
    isKnownLengthOption "bogus" = false ∧
    generate_trip_periods [20] ["bogus", "none"] =
      generate_trip_periods [20] (["bogus", "none"].filter (fun x => x != "bogus")) ∧
    ("Warning: Unknown trip length option " ++ "bogus" ++ ". Skipping.")
      ∈ trip_length_warnings [20] ["bogus", "none"] :=
  ⟨by decide,
   (unknown_length_option_skipped [20] ["bogus", "none"] "bogus" (by decide)).1,
   (unknown_length_option_skipped [20] ["bogus", "none"] "bogus" (by decide)).2
     (by decide) (by decide)⟩

/-- The two date strings of a trip period as consumed by hotel_finder.py. -/
structure TripDates where
  start_date_str : String
  end_date_str : String
deriving DecidableEq, Repr

/-- One entry of the search_locations list passed to find_hotels: the keys
type and location_name of the dictionaries built in main.py (lines 137-146). -/
structure SearchLocation where
  loc_type : String
  location_name : String
deriving DecidableEq, Repr

/-- One dummy hotel option dictionary as built by hotel_finder.py
(lines 29-39). -/
structure HotelOption where
  search_location_type : String
  searched_at : String
  hotel_name : String
  brand : String
  check_in_date : String
  check_out_date : String
  price_total : String
  price_per_night : String
  booking_link : String
deriving DecidableEq, Repr

/-- find_hotels from hotel_finder.py (lines 6-44): when both the location
list and the brand list are nonempty (Python truthiness of the lists), one
dummy record is built from the first location and the first brand; otherwise
the empty list is returned.  The fallback_options argument is printed but
never used to build the result. -/
def find_hotels (trip_period : TripDates) (search_locations : List SearchLocation)
    (preferred_brands : List String) (fallback_options : String) : List HotelOption :=
  match search_locations, preferred_brands with
  | loc :: _, b :: _ =>
      [⟨loc.loc_type, loc.location_name,
        "Dummy " ++ b ++ " " ++ loc.location_name, b,
        trip_period.start_date_str, trip_period.end_date_str,
        "$400 - $700", "$200 - $350",
        "https://hotels.example.com/dummy_link"⟩]
  | _, _ => []

/-- C10: find_hotels returns the same hotel list for any two values of the
fallback_options argument, all other arguments equal: fallback_options never
influences the result. -/
theorem find_hotels_ignores_fallback (trip_period : TripDates)
    (search_locations : List SearchLocation) (preferred_brands : List String)
    (fb1 fb2 : String) :
    find_hotels trip_period search_locations preferred_brands fb1 =
      find_hotels trip_period search_locations preferred_brands fb2 := by
  cases search_locations <;> cases preferred_brands <;> rfl

/-- Result of one call to the slider helper: the computed pixel drag offset
(the drag is performed iff the offset is nonzero, flight_finder.py line 96)
and whether the pixels-per-step warning at line 91 was printed. -/
structure SliderResult where
  offset : Int
  warned : Bool
deriving DecidableEq, Repr

/-- The helper _set_slider_thumb_value of flight_finder.py (lines 50-121),
restricted to its arithmetic: the slider attributes min, max, step and value
read from the page, the track width, and the requested target value.
Lines 72-74 clamp the target; line 76-77 return early when the clamped target
equals the current value; line 79 replaces a non-positive step by 1;
lines 82-91 compute pixels per step, warning when it cannot be computed;
lines 93-94 compute the ceiling of steps-to-move times pixels-per-step. -/
def _set_slider_thumb_value (min_val max_val step_size current_value
    slider_track_width target_value : Int) : SliderResult :=
  let target := max min_val (min max_val target_value)
  if target = current_value then ⟨0, false⟩
  else
    let step : Int := if step_size ≤ 0 then 1 else step_size
    let total_steps_in_slider : ℚ :=
      if max_val = min_val then 0 else ((max_val - min_val : Int) : ℚ) / (step : ℚ)
    let steps_to_move : ℚ := ((target - current_value : Int) : ℚ) / (step : ℚ)
    if total_steps_in_slider ≠ 0 ∧ 0 < slider_track_width then
      ⟨⌈steps_to_move * ((slider_track_width : ℚ) / total_steps_in_slider)⌉, false⟩
    else
      ⟨⌈steps_to_move * (0 : ℚ)⌉, true⟩

/-- The inline price-slider computation of find_flights_selenium
(flight_finder.py lines 400-413): clamp the budget (line 400), return early
when it equals the current value (lines 402-403), replace a zero step by 1
(line 405), compute pixels per step guarding min = max (lines 406-410), and
truncate steps-to-move times pixels-per-step with int() (line 413). -/
def price_filter_drag_offset (min_price max_price step_size current_value
    slider_track_width traveler_budget : Int) : Int :=
  let target_value_for_slider := max min_price (min max_price traveler_budget)
  if target_value_for_slider = current_value then 0
  else
    let step : Int := if step_size = 0 then 1 else step_size
    let total_steps_in_slider : ℚ := ((max_price - min_price : Int) : ℚ) / (step : ℚ)
    let pixels_per_step : ℚ :=
      if total_steps_in_slider = 0 then 0
      else (slider_track_width : ℚ) / total_steps_in_slider
    let steps_to_move : ℚ :=
      ((target_value_for_slider - current_value : Int) : ℚ) / (step : ℚ)
    truncInt (steps_to_move * pixels_per_step)

lemma set_slider_closed_form (min_val max_val step_size current_value
    slider_track_width target_value : Int)
    (hrange : min_val < max_val) (htrack : 0 < slider_track_width) :
    _set_slider_thumb_value min_val max_val step_size current_value
        slider_track_width target_value =
      if max min_val (min max_val target_value) = current_value then ⟨0, false⟩
      else
        ⟨⌈((max min_val (min max_val target_value) - current_value : Int) : ℚ)
            / ((if step_size ≤ 0 then 1 else step_size : Int) : ℚ) *
          ((slider_track_width : ℚ) / (((max_val - min_val : Int) : ℚ)
            / ((if step_size ≤ 0 then 1 else step_size : Int) : ℚ)))⌉, false⟩ := by
  simp only [_set_slider_thumb_value]
  by_cases hc : max min_val (min max_val target_value) = current_value
  · simp [hc]
  · rw [if_neg hc, if_neg hc]
    have hne : max_val ≠ min_val := by omega
    have hdiv : (((max_val - min_val : Int) : ℚ)
        / (((if step_size ≤ 0 then 1 else step_size : Int)) : ℚ)) ≠ 0 := by
      apply div_ne_zero
      · rw [ne_eq, Int.cast_eq_zero]
        omega
      · rw [ne_eq, Int.cast_eq_zero]
        split <;> omega
    rw [if_neg hne, if_pos ⟨hdiv, htrack⟩]

lemma set_slider_min_eq_max (v step_size current_value slider_track_width
    target_value : Int) :
    _set_slider_thumb_value v v step_size current_value slider_track_width
        target_value =
      if v = current_value then ⟨0, false⟩ else ⟨0, true⟩ := by
  simp only [_set_slider_thumb_value]
  have hclamp : max v (min v target_value) = v := max_eq_left (min_le_left _ _)
  rw [hclamp]
  by_cases hc : v = current_value
  · simp [hc]
  · rw [if_neg hc, if_neg hc]
    simp

/-- C2 counterexample: the inline price-slider computation of
find_flights_selenium truncates with int() instead of taking the ceiling.
With min=0, max=1000, step=50, current=0, track_width=510 and target 50, the
exact product is 25.5: the code computes 25 while the claimed ceiling formula
gives 26. -/
theorem price_filter_offset_truncates_not_ceil :
    price_filter_drag_offset 0 1000 50 0 510 50 = 25 ∧
    (⌈(((50 : ℚ) - 0) / 50) * ((510 : ℚ) / (((1000 : ℚ) - 0) / 50))⌉ : Int) = 26 := by
  constructor
  · simp only [price_filter_drag_offset, truncInt]
    have h1 : max (0 : Int) (min 1000 50) = 50 := by decide
    rw [h1, if_neg (by decide : ¬(50 : Int) = 0), if_neg (by decide : ¬(50 : Int) = 0)]
    have h2 : (((1000 : Int) - 0 : Int) : ℚ) / (((50 : Int)) : ℚ) = 20 := by norm_num
    rw [h2, if_neg (by norm_num : ¬(20 : ℚ) = 0)]
    have h3 : (((50 : Int) - 0 : Int) : ℚ) / (((50 : Int)) : ℚ) * ((((510 : Int)) : ℚ) / 20)
        = 51 / 2 := by norm_num
    rw [h3, if_pos (by norm_num : (0 : ℚ) ≤ 51 / 2)]
    rw [Int.floor_eq_iff]
    norm_num
  · rw [Int.ceil_eq_iff]
    norm_num

/-- C2 (amended): both slider-positioning computations first clamp the target
to the min/max range.  For a positive step, a proper range and a positive
track width, the helper _set_slider_thumb_value produces the drag offset
ceil(((clamped target - current) / step) * (track_width / ((max - min) / step))),
while the inline price-filter computation produces the int() truncation of the
same product.  At min=0, max=1000, step=50, current=0, track_width=500 and
target 300 both computations give 150. -/
theorem slider_offset_computation :
    (∀ min_val max_val step_size current_value slider_track_width target_value : Int,
      0 < step_size → min_val < max_val → 0 < slider_track_width →
      (_set_slider_thumb_value min_val max_val step_size current_value
          slider_track_width target_value).offset =
        ⌈((max min_val (min max_val target_value) - current_value : Int) : ℚ)
            / ((step_size : Int) : ℚ) *
          ((slider_track_width : ℚ) / (((max_val - min_val : Int) : ℚ)
            / ((step_size : Int) : ℚ)))⌉) ∧
    (∀ min_price max_price step_size current_value slider_track_width traveler_budget : Int,
      0 < step_size → min_price < max_price →
      price_filter_drag_offset min_price max_price step_size current_value
          slider_track_width traveler_budget =
        truncInt (((max min_price (min max_price traveler_budget) - current_value : Int) : ℚ)
            / ((step_size : Int) : ℚ) *
          ((slider_track_width : ℚ) / (((max_price - min_price : Int) : ℚ)
            / ((step_size : Int) : ℚ))))) ∧
    (_set_slider_thumb_value 0 1000 50 0 500 300).offset = 150 ∧
    price_filter_drag_offset 0 1000 50 0 500 300 = 150 := by
  have Hhelper : ∀ min_val max_val step_size current_value slider_track_width target_value : Int,
      0 < step_size → min_val < max_val → 0 < slider_track_width →
      (_set_slider_thumb_value min_val max_val step_size current_value
          slider_track_width target_value).offset =
        ⌈((max min_val (min max_val target_value) - current_value : Int) : ℚ)
            / ((step_size : Int) : ℚ) *
          ((slider_track_width : ℚ) / (((max_val - min_val : Int) : ℚ)
            / ((step_size : Int) : ℚ)))⌉ := by
    intro mi ma s c w t hs hr hw
    rw [set_slider_closed_form mi ma s c w t hr hw]
    have hstep : ¬ s ≤ 0 := by omega
    rw [if_neg hstep]
    by_cases hc : max mi (min ma t) = c
    · rw [if_pos hc, hc]
      simp
    · rw [if_neg hc]
  have Hprice : ∀ min_price max_price step_size current_value slider_track_width traveler_budget : Int,
      0 < step_size → min_price < max_price →
      price_filter_drag_offset min_price max_price step_size current_value
          slider_track_width traveler_budget =
        truncInt (((max min_price (min max_price traveler_budget) - current_value : Int) : ℚ)
            / ((step_size : Int) : ℚ) *
          ((slider_track_width : ℚ) / (((max_price - min_price : Int) : ℚ)
            / ((step_size : Int) : ℚ)))) := by
    intro mi ma s c w b hs hr
    simp only [price_filter_drag_offset]
    have hs0 : ¬ s = 0 := by omega
    rw [if_neg hs0]
    have hdiv : (((ma - mi : Int) : ℚ) / ((s : Int) : ℚ)) ≠ 0 := by
      apply div_ne_zero
      · rw [ne_eq, Int.cast_eq_zero]
        omega
      · rw [ne_eq, Int.cast_eq_zero]
        omega
    rw [if_neg hdiv]
    by_cases hc : max mi (min ma b) = c
    · rw [if_pos hc, hc]
      simp [truncInt]
    · rw [if_neg hc]
  refine ⟨Hhelper, Hprice, ?_, ?_⟩
  · rw [Hhelper 0 1000 50 0 500 300 (by norm_num) (by norm_num) (by norm_num)]
    have h1 : max (0 : Int) (min 1000 300) = 300 := by decide
    rw [h1]
    have h2 : (((300 : Int) - 0 : Int) : ℚ) / (((50 : Int)) : ℚ) *
        ((((500 : Int)) : ℚ) / ((((1000 : Int) - 0 : Int) : ℚ) / (((50 : Int)) : ℚ)))
        = ((150 : Int) : ℚ) := by norm_num
    rw [h2, Int.ceil_intCast]
  · rw [Hprice 0 1000 50 0 500 300 (by norm_num) (by norm_num)]
    have h1 : max (0 : Int) (min 1000 300) = 300 := by decide
    rw [h1]
    have h2 : (((300 : Int) - 0 : Int) : ℚ) / (((50 : Int)) : ℚ) *
        ((((500 : Int)) : ℚ) / ((((1000 : Int) - 0 : Int) : ℚ) / (((50 : Int)) : ℚ)))
        = ((150 : Int) : ℚ) := by norm_num
    rw [h2]
    simp [truncInt]

/-- Witness for C2 (amended) at the concrete inputs of the claim. -/
theorem slider_offset_computation_witness :
    ((0 : Int) < 50 ∧ (0 : Int) < 1000 ∧ (0 : Int) < 500) ∧
    (_set_slider_thumb_value 0 1000 50 0 500 300).offset =
      ⌈((max 0 (min 1000 300) - 0 : Int) : ℚ) / (((50 : Int)) : ℚ) *
        ((((500 : Int)) : ℚ) / (((1000 - 0 : Int) : ℚ) / (((50 : Int)) : ℚ)))⌉ :=
  ⟨⟨by decide, by decide, by decide⟩,
   slider_offset_computation.1 0 1000 50 0 500 300 (by decide) (by decide) (by decide)⟩

/-- C5 counterexample: with a zero step (min=0, max=100, step=0, current=0,
track_width=100, target 50) the helper does not treat the request as a no-op
and emits no warning: it silently substitutes step 1 and computes the nonzero
drag offset 50, so a drag is performed. -/
theorem slider_nonpositive_step_not_noop :
    (_set_slider_thumb_value 0 100 0 0 100 50).offset = 50 ∧
    (_set_slider_thumb_value 0 100 0 0 100 50).warned = false := by
  rw [set_slider_closed_form 0 100 0 0 100 50 (by norm_num) (by norm_num)]
  have h1 : max (0 : Int) (min 100 50) = 50 := by decide
  rw [h1, if_neg (by decide : ¬(50 : Int) = 0)]
  have h2 : (((50 : Int) - 0 : Int) : ℚ) / (((if (0 : Int) ≤ 0 then 1 else 0 : Int)) : ℚ) *
      ((((100 : Int)) : ℚ) / ((((100 : Int) - 0 : Int) : ℚ)
        / (((if (0 : Int) ≤ 0 then 1 else 0 : Int)) : ℚ)))
      = ((50 : Int) : ℚ) := by norm_num
  rw [h2, Int.ceil_intCast]
  exact ⟨rfl, rfl⟩

/-- C5 (amended): when min equals max the computation performs no division by
zero and no drag (the offset is 0), and the warning is emitted exactly when
the clamped target differs from the current value; when the declared step is
non-positive the computation does not treat the request as a no-op but behaves
exactly as if the step were 1 (still with no division by zero). -/
theorem slider_degenerate_guards :
    (∀ v step_size current_value slider_track_width target_value : Int,
      (_set_slider_thumb_value v v step_size current_value
          slider_track_width target_value).offset = 0 ∧
      ((_set_slider_thumb_value v v step_size current_value
          slider_track_width target_value).warned = true ↔ current_value ≠ v)) ∧
    (∀ min_val max_val step_size current_value slider_track_width target_value : Int,
      step_size ≤ 0 →
      _set_slider_thumb_value min_val max_val step_size current_value
          slider_track_width target_value =
        _set_slider_thumb_value min_val max_val 1 current_value
          slider_track_width target_value) := by
  constructor
  · intro v s c w t
    rw [set_slider_min_eq_max]
    by_cases hc : v = c
    · simp [hc]
    · rw [if_neg hc]
      exact ⟨rfl, iff_of_true rfl fun h => hc h.symm⟩
  · intro mi ma s c w t hs
    simp only [_set_slider_thumb_value, if_pos hs]
    norm_num

/-- Witness for C5 (amended) at step 0 and at a degenerate min = max slider. -/
theorem slider_degenerate_guards_witness :
    ((0 : Int) ≤ 0 ∧
      _set_slider_thumb_value 0 100 0 0 100 50 =
        _set_slider_thumb_value 0 100 1 0 100 50) ∧
    (_set_slider_thumb_value 5 5 10 7 100 9).offset = 0 :=
  ⟨⟨by decide, slider_degenerate_guards.2 0 100 0 0 100 50 (by decide)⟩,
   (slider_degenerate_guards.1 5 10 7 100 9).1⟩

/-- One status/message pair as appended to flight_results_summary in
find_flights_selenium (flight_finder.py line 570 and the early returns at
lines 139 and 145). -/
structure SearchRecord where
  status : String
  message : String
deriving DecidableEq, Repr

/-- How the body of the outer try block of find_flights_selenium
(flight_finder.py lines 151-577) resolves.  The browser interactions
themselves are abstracted: completes means control reaches the single append
and return at lines 570-577 carrying the final search_success_status and
search_message (this covers every run in which all exceptions were caught by
the inner filter handlers, lines 359-566); the three raises constructors mean
the corresponding exception escapes the inner flow and is caught by the outer
handlers at lines 582-599, after which the function body ends with no return
statement. -/
inductive SessionEvent where
  | completes (status message : String)
  | raisesTimeout
  | raisesNoSuchElement
  | raisesOther
deriving DecidableEq, Repr

/-- Observable outcome of one call to find_flights_selenium: the returned
value (none models the implicit Python None of a fall-through), whether the
WebDriver was successfully initialised, whether driver.quit() ran (the
finally block at lines 600-603), and whether any browser step was performed
(everything from driver.get at line 152 on). -/
structure SearchRun where
  result : Option (List SearchRecord)
  driverStarted : Bool
  driverClosed : Bool
  browserSteps : Bool
deriving DecidableEq, Repr

/-- Python truthiness of the origin_ap and dest_ap locals of
find_flights_selenium (lines 134-137): None or the empty string are falsy. -/
def falsyAirport : Option String → Bool
  | none => true
  | some s => s.isEmpty

/-- find_flights_selenium of flight_finder.py (lines 124-607), abstracted to
its control flow: origin_ap and dest_ap are the first elements of the two
airport lists when present (lines 134-135); a falsy one returns the single
ERROR_MISSING_INPUTS record (lines 137-139); a failed WebDriver
initialisation returns the single ERROR_WEBDRIVER_INIT record (lines
143-145); otherwise the outer try runs and either returns the single
appended record (lines 570-577) or falls through the outer exception
handlers to an implicit None, with driver.quit() running in the finally
block on every path after initialisation. -/
def find_flights_selenium (origin_airport_options destination_airports : List String)
    (webdriver_ok : Bool) (ev : SessionEvent) : SearchRun :=
  let origin_ap := origin_airport_options.head?
  let dest_ap := destination_airports.head?
  if falsyAirport origin_ap || falsyAirport dest_ap then
    ⟨some [⟨"ERROR_MISSING_INPUTS", "Origin or destination airport missing."⟩],
     false, false, false⟩
  else if !webdriver_ok then
    ⟨some [⟨"ERROR_WEBDRIVER_INIT", "Failed to initialize WebDriver."⟩],
     false, false, false⟩
  else
    match ev with
    | .completes st msg => ⟨some [⟨st, msg⟩], true, true, true⟩
    | _ => ⟨none, true, true, true⟩

/-- C3 (code bug): when the outer try block of find_flights_selenium raises
(timeout, missing element, or any other exception), the handlers at lines
582-599 set a status and message but the append and return lines (605-606)
are commented out, so the function returns None and the failure is never
returned as a status/message record; only failures caught by the inner
filter handlers come back as exactly one record. -/
theorem outer_exception_returns_no_record :
    (find_flights_selenium ["SFO"] ["LAS"] true SessionEvent.raisesTimeout).result = none ∧
    (find_flights_selenium ["SFO"] ["LAS"] true SessionEvent.raisesNoSuchElement).result = none ∧
    (find_flights_selenium ["SFO"] ["LAS"] true SessionEvent.raisesOther).result = none ∧
    (find_flights_selenium ["SFO"] ["LAS"] true
        (SessionEvent.completes "ERROR_FILTER_STOPS_TIMEOUT"
          "Timeout applying Stops filter")).result
      = some [⟨"ERROR_FILTER_STOPS_TIMEOUT", "Timeout applying Stops filter"⟩] :=
  ⟨rfl, rfl, rfl, rfl⟩

/-- C6: whenever the WebDriver was successfully initialised, driver.quit()
runs before find_flights_selenium returns, on every path. -/
theorem webdriver_always_closed (origin_airport_options destination_airports : List String)
    (webdriver_ok : Bool) (ev : SessionEvent)
    (h : (find_flights_selenium origin_airport_options destination_airports
        webdriver_ok ev).driverStarted = true) :
    (find_flights_selenium origin_airport_options destination_airports
        webdriver_ok ev).driverClosed = true := by
  simp only [find_flights_selenium] at h ⊢
  by_cases h1 : (falsyAirport origin_airport_options.head?
      || falsyAirport destination_airports.head?) = true
  · rw [if_pos h1] at h
    exact absurd h (by simp)
  · rw [if_neg h1] at h ⊢
    by_cases h2 : (!webdriver_ok) = true
    · rw [if_pos h2] at h
      exact absurd h (by simp)
    · rw [if_neg h2]
      cases ev <;> rfl

/-- Witness for C6 at a concrete run whose outer try raises. -/
theorem webdriver_always_closed_witness :
    (find_flights_selenium ["SFO"] ["LAS"] true SessionEvent.raisesOther).driverStarted = true ∧
    (find_flights_selenium ["SFO"] ["LAS"] true SessionEvent.raisesOther).driverClosed = true :=
  ⟨rfl, webdriver_always_closed ["SFO"] ["LAS"] true SessionEvent.raisesOther rfl⟩

/-- C7: an empty origin list, an empty destination list, or a failed
WebDriver initialisation makes find_flights_selenium return exactly one
error-status record, and no browser step is performed. -/
theorem precondition_failure_single_record
    (origin_airport_options destination_airports : List String)
    (webdriver_ok : Bool) (ev : SessionEvent)
    (h : origin_airport_options = [] ∨ destination_airports = [] ∨ webdriver_ok = false) :
    (∃ r : SearchRecord,
      (find_flights_selenium origin_airport_options destination_airports
          webdriver_ok ev).result = some [r] ∧
      (r.status = "ERROR_MISSING_INPUTS" ∨ r.status = "ERROR_WEBDRIVER_INIT")) ∧
    (find_flights_selenium origin_airport_options destination_airports
        webdriver_ok ev).browserSteps = false := by
  unfold find_flights_selenium
  rcases h with h | h | h
  · subst h
    simp [falsyAirport]
  · subst h
    by_cases ho : falsyAirport origin_airport_options.head?
    · simp [ho, falsyAirport]
    · simp [ho, falsyAirport]
  · subst h
    by_cases ho : falsyAirport origin_airport_options.head?
    · simp [ho]
    · by_cases hd : falsyAirport destination_airports.head?
      · simp [ho, hd]
      · simp [ho, hd]

/-- Witness for C7 at an empty origin airport list. -/
theorem precondition_failure_single_record_witness :
    (([] : List String) = [] ∨ (["LAS"] : List String) = [] ∨ true = false) ∧
    ((∃ r : SearchRecord,
      (find_flights_selenium [] ["LAS"] true SessionEvent.raisesOther).result = some [r] ∧
      (r.status = "ERROR_MISSING_INPUTS" ∨ r.status = "ERROR_WEBDRIVER_INIT")) ∧
    (find_flights_selenium [] ["LAS"] true SessionEvent.raisesOther).browserSteps = false) :=
  ⟨Or.inl rfl,
   precondition_failure_single_record [] ["LAS"] true SessionEvent.raisesOther (Or.inl rfl)⟩
